import Mathlib

/-!
Verification of the chat / visualization-dispatch core of the
AI-powered-business-analyser frontend.

The embedded code comes from two React components:
* `ChatInterface.handleSendMessage` (message lifecycle, single in-flight
  request, success / failure handling) in
  `src/frontend/src/components/MessageBubble.jsx`;
* `ChartRenderer` (chart-data validity check, mode dispatch, table rendering
  with the 10-row cap, column inference, and cell stringification) in
  `src/frontend/src/components/ChartRenderer.jsx`.

JavaScript values flowing through these components are loosely typed, so we
embed them as an untyped `JVal` tree (undefined / null / boolean / number /
string / array / object).  Numbers are modelled as integers: every numeric
value the embedded code produces or compares (array lengths, the literals 0,
10 and 30) is integral, and no claim depends on float formatting.  Property
access on `null`/`undefined` throws `TypeError` in JavaScript, as do calls of
missing methods (`.slice`/`.map` on non-arrays, `Object.keys` on nullish
arguments); fallible evaluation is therefore embedded in `Except JsErr`.
-/

/-- Embedded JavaScript runtime error (the only kind the embedded code can
raise is `TypeError`). -/
inductive JsErr where
  | typeError
deriving DecidableEq, Repr

/-- Untyped JavaScript value.  Objects are association lists with distinct
keys in insertion order (the shape JSON parsing produces). -/
inductive JVal where
  | undefined
  | null
  | bool (b : Bool)
  | num (n : Int)
  | str (s : String)
  | arr (elems : List JVal)
  | obj (fields : List (String × JVal))

namespace JVal

/-- `v == null || v == undefined` — the values on which property access
throws. -/
def isNullish : JVal → Bool
  | .undefined => true
  | .null => true
  | _ => false

/-- JavaScript truthiness (empty string and zero are falsy; every array and
object, including `[]` and `\x7b\x7d`, is truthy). -/
def truthy : JVal → Bool
  | .undefined => false
  | .null => false
  | .bool b => b
  | .num n => n != 0
  | .str s => s != ""
  | .arr _ => true
  | .obj _ => true

end JVal

/-- `a || b`: the first operand when truthy, else the second. -/
def jsOr (a b : JVal) : JVal := if a.truthy then a else b

/-- Non-throwing property read on a value already known non-nullish:
objects look the key up, arrays and strings expose `length`, any other
access yields `undefined`. -/
def getField : JVal → String → JVal
  | .obj fs, k => (fs.lookup k).getD .undefined
  | .arr xs, "length" => .num xs.length
  | .str s, "length" => .num s.length
  | _, _ => .undefined

/-- Plain property access `v.k`: throws `TypeError` on nullish `v`. -/
def getProp (v : JVal) (k : String) : Except JsErr JVal :=
  if v.isNullish then .error .typeError else .ok (getField v k)

/-- Optional-chaining access `v?.k`: `undefined` on nullish `v`, otherwise
an ordinary (non-throwing) read. -/
def optChainGet (v : JVal) (k : String) : JVal :=
  if v.isNullish then .undefined else getField v k

/-- Index access `v[i]` on a non-nullish value: array element, string
character, or object property named by the index's decimal form. -/
def atIdx (v : JVal) (i : Nat) : JVal :=
  match v with
  | .arr xs => (xs.get? i).getD .undefined
  | .str s => match s.toList.get? i with
    | some c => .str (String.singleton c)
    | none => .undefined
  | .obj fs => (fs.lookup (toString i)).getD .undefined
  | _ => .undefined

/-- `Object.keys(v)`: own enumerable keys in insertion order; index keys for
arrays and strings; throws `TypeError` on nullish `v`; empty for other
primitives. -/
def objectKeys : JVal → Except JsErr (List String)
  | .obj fs => .ok (fs.map Prod.fst)
  | .arr xs => .ok ((List.range xs.length).map toString)
  | .str s => .ok ((List.range s.length).map toString)
  | .undefined => .error .typeError
  | .null => .error .typeError
  | _ => .ok []

/-- Elements of an array value.  Calling `.slice`/`.map` on any non-array
the embedded code ever passes here throws `TypeError` (for a string operand
`.slice` succeeds but the chained `.map` throws, so the overall outcome is
the same error). -/
def arrElems : JVal → Except JsErr (List JVal)
  | .arr xs => .ok xs
  | _ => .error .typeError

/-- Strict string comparison `v === "s"`. -/
def jvalIsStr (v : JVal) (s : String) : Bool :=
  match v with
  | .str t => t == s
  | _ => false

/-- Strict comparison `v === 0` (used for `tableData.length === 0`). -/
def isNumZero : JVal → Bool
  | .num n => n == 0
  | _ => false

/-- Loose comparison `v > 0` as the embedded code uses it
(`tableData.length > 0`): true only for a positive number. -/
def jsGtZero : JVal → Bool
  | .num n => decide (0 < n)
  | _ => false

mutual

/-- JavaScript `String(v)` / `v.toString()`. -/
def jsToString : JVal → String
  | .undefined => "undefined"
  | .null => "null"
  | .bool true => "true"
  | .bool false => "false"
  | .num n => toString n
  | .str s => s
  | .arr xs => String.intercalate "," (jsToStringElems xs)
  | .obj _ => "[object Object]"

/-- Array `toString` stringifies elements, rendering nullish ones empty. -/
def jsToStringElems : List JVal → List String
  | [] => []
  | x :: xs =>
    (match x with
      | .undefined => ""
      | .null => ""
      | v => jsToString v) :: jsToStringElems xs

end

/-- Escape for JSON string output (quote and backslash; the embedded
payloads contain no control characters). -/
def jsonEscapeChar (c : Char) : String :=
  if c = '"' then "\\\"" else if c = '\\' then "\\\\" else String.singleton c

/-- A JSON-quoted string. -/
def jsonQuote (s : String) : String :=
  "\"" ++ String.join (s.toList.map jsonEscapeChar) ++ "\""

mutual

/-- `JSON.stringify(v)` (compact form).  The embedded code only applies it
to non-null objects and arrays; the `undefined` branch is unreachable there. -/
def jsonStringify : JVal → String
  | .undefined => "undefined"
  | .null => "null"
  | .bool true => "true"
  | .bool false => "false"
  | .num n => toString n
  | .str s => jsonQuote s
  | .arr xs => "[" ++ String.intercalate "," (jsonStringifyElems xs) ++ "]"
  | .obj fs => "\x7b" ++ String.intercalate "," (jsonStringifyFields fs) ++ "\x7d"

/-- Array elements: `undefined` serializes as `null`. -/
def jsonStringifyElems : List JVal → List String
  | [] => []
  | x :: xs =>
    (match x with
      | .undefined => "null"
      | v => jsonStringify v) :: jsonStringifyElems xs

/-- Object fields: `undefined`-valued fields are omitted. -/
def jsonStringifyFields : List (String × JVal) → List String
  | [] => []
  | (k, v) :: fs =>
    match v with
    | .undefined => jsonStringifyFields fs
    | v => (jsonQuote k ++ ":" ++ jsonStringify v) :: jsonStringifyFields fs

end

/-- `typeof value === 'object' && value !== null` — true exactly for arrays
and objects (and `null`, excluded by the second conjunct). -/
def isObjectNonNull : JVal → Bool
  | .arr _ => true
  | .obj _ => true
  | _ => false

/-- The cell stringification of `renderTable` (ChartRenderer.jsx:178-181):
`typeof value === 'object' && value !== null ? JSON.stringify(value)
 : value != null ? value.toString() : ''`. -/
def stringifyCellVal (v : JVal) : String :=
  if isObjectNonNull v then jsonStringify v
  else if !v.isNullish then jsToString v
  else ""

/-- `.map` over a list with a possibly-throwing callback (JavaScript
`Array.prototype.map`: the first throw aborts the whole call). -/
def mapExcept (f : α → Except JsErr β) : List α → Except JsErr (List β)
  | [] => .ok []
  | x :: xs => do
    let y ← f x
    let ys ← mapExcept f xs
    .ok (y :: ys)

/-!
## ChartRenderer (src/frontend/src/components/ChartRenderer.jsx)

`ChartRenderer` receives the bot message's `data`, `visualizationType` and
`hasForecast` props.  Its render result is embedded as a `Rendered` value:
what the component's inner `renderChart()` places in the visualization box.
-/

/-- What `renderChart()` produces.
* `chart kind labels datasets title` — a chart.js `<Line>`/`<Bar>`/`<Pie>`
  (`kind` is "line", "bar" or "pie") with the given data slices and title;
* `table columns header body footer` — the `<Table>`: the column list the
  code mapped over, the rendered header cells, the stringified body cells,
  and the truncation footer when present;
* `unableMsg` — the notice "Unable to generate chart. Please try a
  different query or request the data in table format.";
* `noData` — the notice "No data available for display". -/
inductive Rendered where
  | chart (kind : String) (labels datasets title : JVal)
  | table (columns header : List JVal) (body : List (List String))
      (footer : Option String)
  | unableMsg
  | noData

/-- Discriminator: is the render result a data table? -/
def Rendered.isTable : Rendered → Bool
  | .table _ _ _ _ => true
  | _ => false

/-- The truncation notice text (ChartRenderer.jsx:192):
`Showing 10 of {tableData.length} records`. -/
def footerText (total : Nat) : String :=
  "Showing 10 of " ++ toString total ++ " records"

/-- ChartRenderer.jsx:44-46 — `data.chart_data && data.chart_data.data &&
data.chart_data.data.labels && data.chart_data.data.datasets`, used as a
boolean.  `&&` short-circuits, so each deeper read only happens once the
previous link is truthy (hence non-nullish and safe to read). -/
def hasChartData (data : JVal) : Bool :=
  (getField data "chart_data").truthy &&
  (getField (getField data "chart_data") "data").truthy &&
  (getField (getField (getField data "chart_data") "data") "labels").truthy &&
  (getField (getField (getField data "chart_data") "data") "datasets").truthy

/-- `data.chart_data.options?.plugins?.title?.text || dflt` (the title
expression shared by the three chart renderers).  The leading plain reads
are only evaluated under `hasChartData`, where `data` and
`data.chart_data` are truthy, so the non-throwing read is exact. -/
def chartTitleOr (data : JVal) (dflt : String) : JVal :=
  jsOr
    (optChainGet
      (optChainGet
        (optChainGet (getField (getField data "chart_data") "options") "plugins")
        "title")
      "text")
    (.str dflt)

/-- `labels`/`datasets` slice passed to the chart components:
`data.chart_data.data.labels` and `.datasets`. -/
def chartDataField (data : JVal) (k : String) : JVal :=
  getField (getField (getField data "chart_data") "data") k

/-- ChartRenderer.jsx:76-96 `renderLineChart`. -/
def renderLineChart (data : JVal) : Rendered :=
  .chart "line" (chartDataField data "labels") (chartDataField data "datasets")
    (chartTitleOr data "Trend Analysis")

/-- ChartRenderer.jsx:98-118 `renderBarChart`. -/
def renderBarChart (data : JVal) : Rendered :=
  .chart "bar" (chartDataField data "labels") (chartDataField data "datasets")
    (chartTitleOr data "Comparison")

/-- ChartRenderer.jsx:120-140 `renderPieChart`. -/
def renderPieChart (data : JVal) : Rendered :=
  .chart "pie" (chartDataField data "labels") (chartDataField data "datasets")
    (chartTitleOr data "Distribution")

/-- ChartRenderer.jsx:155-156 — the `columns` value together with the
`columns.map(...)` calls consuming it: `data.chart_data?.columns ||
(tableData.length > 0 ? Object.keys(tableData[0]) : [])`.  A truthy
explicit `columns` that is not an array makes the consuming `.map` throw,
exactly as `arrElems` records. -/
def columnSpec (cd tableData : JVal) : Except JsErr (List JVal) :=
  let explicit := optChainGet cd "columns"
  if explicit.truthy then arrElems explicit
  else if jsGtZero (getField tableData "length") then do
    let ks ← objectKeys (atIdx tableData 0)
    arrElems (.arr (ks.map JVal.str))
  else arrElems (.arr [])

/-- Header row (ChartRenderer.jsx:163-167): each cell's key attribute is
`column.field || column` and its text `column.headerName || column`; both
property reads throw on a nullish column entry. -/
def headerCells (cols : List JVal) : Except JsErr (List JVal) :=
  mapExcept (fun c => do
    let _ ← getProp c "field"
    let h ← getProp c "headerName"
    .ok (jsOr h c)) cols

/-- One body cell (ChartRenderer.jsx:173-183): `columnKey = column.field ||
column`, `value = row[columnKey]` (the key coerced to a string, throwing on
a nullish row), then the cell stringification. -/
def bodyCell (row c : JVal) : Except JsErr String := do
  let f ← getProp c "field"
  let v ← getProp row (jsToString (jsOr f c))
  .ok (stringifyCellVal v)

/-- One body row: `columns.map(...)` over the row's cells. -/
def bodyRow (cols : List JVal) (row : JVal) : Except JsErr (List String) :=
  mapExcept (bodyCell row) cols

/-- ChartRenderer.jsx:142-198 `renderTable`.
`tableData = data.chart_data?.data || data.data || []` (the leading plain
read of `data.chart_data` throws on nullish `data`; with the final `|| []`
the result is always truthy, so the `!tableData` disjunct of the guard is
dead and the guard is exactly `tableData.length === 0`).  Body rows are
`tableData.slice(0, 10).map(...)`; the truncation footer appears iff
`tableData.length > 10`. -/
def renderTable (data : JVal) : Except JsErr Rendered := do
  let cd ← getProp data "chart_data"
  let dMain ← getProp data "data"
  let tableData := jsOr (jsOr (optChainGet cd "data") dMain) (.arr [])
  if isNumZero (getField tableData "length") then
    .ok .noData
  else do
    let cols ← columnSpec cd tableData
    let hdr ← headerCells cols
    let rows ← arrElems tableData
    let body ← mapExcept (bodyRow cols) (rows.take 10)
    .ok (.table cols hdr body
      (if rows.length > 10 then some (footerText rows.length) else none))

/-- ChartRenderer.jsx:48-74 `renderChart`: without valid chart data, table
mode falls through to `renderTable` and every other mode yields the
"unable to generate chart" notice; with valid chart data, the mode switch
dispatches on `visualizationType`, defaulting (including the explicit
`'table'` case) to `renderTable`. -/
def renderChart (data vt : JVal) : Except JsErr Rendered :=
  if !(hasChartData data) then
    if jvalIsStr vt "table" then renderTable data else .ok .unableMsg
  else if jvalIsStr vt "line" then .ok (renderLineChart data)
  else if jvalIsStr vt "bar" then .ok (renderBarChart data)
  else if jvalIsStr vt "pie" then .ok (renderPieChart data)
  else renderTable data

/-- The visualization panel ChartRenderer mounts around `renderChart()`:
its heading, the inner render, and the optional forecast note. -/
structure Panel where
  title : String
  body : Rendered
  forecastNote : Option JVal

/-- ChartRenderer.jsx:40-216, the component itself: `if (!data) return
null`, else the panel titled by `hasForecast`, the `renderChart()` body,
and — when `hasForecast && data.forecast` — the forecast note showing
`data.periods || 30`. -/
def chartRendererView (data vt hf : JVal) : Except JsErr (Option Panel) :=
  if !data.truthy then .ok none
  else do
    let inner ← renderChart data vt
    .ok (some
      { title := if hf.truthy then "Forecast Results" else "Data Visualization"
        body := inner
        forecastNote :=
          if hf.truthy && (getField data "forecast").truthy then
            some (jsOr (getField data "periods") (.num 30))
          else none })

/-!
## ChatInterface (src/frontend/src/components/MessageBubble.jsx, second
component)

State: the `messages` array, the `inputMessage` buffer and the `isLoading`
flag.  `handleSendMessage` guards on `!inputMessage.trim() || isLoading`,
appends the user message, clears the input, sets `isLoading`, performs the
remote call, and appends either the bot message built from the response
body or the fixed error message; `finally` clears `isLoading` on both
paths.  The remote call is the only suspension point, so the whole handler
is embedded as one state transformer taking the call's outcome as a
parameter; timestamps (`new Date()`) are presentation-only and carried by
no claim, so they are not modelled. -/

/-- JavaScript `String.prototype.trim()`: strip leading and trailing
whitespace.  (Embedded directly so that it evaluates by reduction.) -/
def jsTrim (s : String) : String :=
  String.mk
    (((s.toList.dropWhile Char.isWhitespace).reverse.dropWhile
      Char.isWhitespace).reverse)

/-- One entry of the `messages` array.  JavaScript object fields that a
given constructor site does not set are `undefined`; `isError` is set (to
`true`) only by the error message, so absence is modelled as `false`. -/
structure Message where
  type : String
  content : JVal
  data : JVal := .undefined
  visualization : JVal := .undefined
  hasForecast : JVal := .undefined
  isError : Bool := false

/-- The component state triple. -/
structure ChatState where
  messages : List Message
  inputMessage : String
  isLoading : Bool

/-- The fixed apology string (MessageBubble.jsx:108). -/
def apologyText : String := "Sorry, I encountered an error processing your request."

/-- MessageBubble.jsx:79-83 — the user message (content is the untrimmed
input). -/
def userMessageOf (text : String) : Message :=
  { type := "user", content := .str text }

/-- MessageBubble.jsx:106-111 — the fixed error message. -/
def errorMessageVal : Message :=
  { type := "bot", content := .str apologyText, isError := true }

/-- MessageBubble.jsx:95-102 — the bot message built from the response body
`d`: each field is a plain property read (`d.response`, `d.data`,
`d.visualization_type`, `d.has_forecast`).  Reading a field a 2xx body
lacks yields `undefined`, not an error. -/
def botMessageOf (d : JVal) : Message :=
  { type := "bot"
    content := getField d "response"
    data := getField d "data"
    visualization := getField d "visualization_type"
    hasForecast := getField d "has_forecast" }

/-- Whether a call of `handleSendMessage` passes the guard and issues the
remote request (the negation of `!inputMessage.trim() || isLoading`). -/
def issuesRequest (s : ChatState) : Bool :=
  !(jsTrim s.inputMessage == "") && !s.isLoading

/-- MessageBubble.jsx:76-116 `handleSendMessage`.  `svc` is the outcome of
`axios.post`: `.error ()` for a thrown transport error (network failure or
non-2xx status), `.ok d` for a 2xx response with body `d`.  Inside the
`try`, the reads `response.data.*` themselves throw when the body is
nullish, and that throw is caught by the same `catch`, so a nullish body
also produces the error message.  The `finally` clears `isLoading` on
every path that dispatched. -/
def handleSendMessage (s : ChatState) (svc : Except Unit JVal) : ChatState :=
  if jsTrim s.inputMessage == "" || s.isLoading then s
  else
    let afterDispatch : ChatState :=
      { messages := s.messages ++ [userMessageOf s.inputMessage]
        inputMessage := ""
        isLoading := true }
    match svc with
    | .ok d =>
      if d.isNullish then
        { afterDispatch with
            messages := afterDispatch.messages ++ [errorMessageVal]
            isLoading := false }
      else
        { afterDispatch with
            messages := afterDispatch.messages ++ [botMessageOf d]
            isLoading := false }
    | .error _ =>
      { afterDispatch with
          messages := afterDispatch.messages ++ [errorMessageVal]
          isLoading := false }

/-- MessageBubble.jsx:177 — the condition under which ChatInterface mounts
`ChartRenderer` below a message bubble:
`message.type === 'bot' && message.data && message.visualization !== 'text'`. -/
def mountsChartRenderer (m : Message) : Bool :=
  m.type == "bot" && m.data.truthy && !(jvalIsStr m.visualization "text")

/-!
## Derived descriptions and general lemmas

`cellRender`, `hdrRender`, `tableBodyOf` and `inferredColumns` are the
success-path values of the corresponding `Except` computations; the lemmas
below show the renderer produces exactly them whenever the relevant reads
cannot throw.
-/

/-- Success value of `bodyCell`: the stringified `row[column.field || column]`. -/
def cellRender (row c : JVal) : String :=
  stringifyCellVal (getField row (jsToString (jsOr (getField c "field") c)))

/-- Success value of a header cell: `column.headerName || column`. -/
def hdrRender (c : JVal) : JVal :=
  jsOr (getField c "headerName") c

/-- Success value of the table body: the first ten rows, each mapped over
the column list. -/
def tableBodyOf (cols rows : List JVal) : List (List String) :=
  (rows.take 10).map (fun r => cols.map (cellRender r))

/-- The inferred column list: the first row's keys in first-seen order. -/
def inferredColumns (fs : List (String × JVal)) : List JVal :=
  (fs.map Prod.fst).map JVal.str

theorem except_bind_ok {ε α β : Type} (a : α) (k : α → Except ε β) :
    ((Except.ok a : Except ε α) >>= k) = k a := rfl

theorem getProp_ok (v : JVal) (h : v.isNullish = false) (k : String) :
    getProp v k = .ok (getField v k) := by
  simp [getProp, h]

theorem mapExcept_ok {α β : Type} (f : α → Except JsErr β) (g : α → β)
    (xs : List α) (h : ∀ x ∈ xs, f x = .ok (g x)) :
    mapExcept f xs = .ok (xs.map g) := by
  induction xs with
  | nil => rfl
  | cons x xs ih =>
    simp only [mapExcept, h x (by simp), except_bind_ok,
      ih (fun y hy => h y (by simp [hy])), List.map_cons]

theorem bodyCell_ok (row c : JVal) (hr : row.isNullish = false)
    (hc : c.isNullish = false) :
    bodyCell row c = .ok (cellRender row c) := by
  unfold bodyCell
  simp only [getProp_ok c hc, except_bind_ok, getProp_ok row hr, cellRender]

theorem bodyRow_ok (cols : List JVal) (row : JVal) (hr : row.isNullish = false)
    (hc : ∀ c ∈ cols, c.isNullish = false) :
    bodyRow cols row = .ok (cols.map (cellRender row)) :=
  mapExcept_ok _ _ cols (fun c hcc => bodyCell_ok row c hr (hc c hcc))

theorem headerCells_ok (cols : List JVal) (hc : ∀ c ∈ cols, c.isNullish = false) :
    headerCells cols = .ok (cols.map hdrRender) := by
  unfold headerCells
  exact mapExcept_ok _ _ cols (fun c hcc => by
    simp only [getProp_ok c (hc c hcc), except_bind_ok, hdrRender])

theorem hdrRender_str (k : String) : hdrRender (.str k) = .str k := rfl

theorem cellRender_str (row : JVal) (k : String) :
    cellRender row (.str k) = stringifyCellVal (getField row k) := rfl

theorem map_hdrRender_str (ks : List String) :
    (ks.map JVal.str).map hdrRender = ks.map JVal.str := by
  induction ks with
  | nil => rfl
  | cons k ks ih => simp only [List.map_cons, ih]; rfl

theorem map_hdrRender_inferred (fs : List (String × JVal)) :
    (inferredColumns fs).map hdrRender = inferredColumns fs :=
  map_hdrRender_str (fs.map Prod.fst)

theorem inferredColumns_nonNullish (fs : List (String × JVal)) :
    ∀ c ∈ inferredColumns fs, c.isNullish = false := by
  intro c hc
  obtain ⟨k, _, rfl⟩ := List.mem_map.1 hc
  rfl

/-- `renderTable` on a `\x7b data: [...] \x7d` payload, with the plain
reads and the `tableData` disjunction reduced. -/
theorem renderTable_data_arr (rows : List JVal) :
    renderTable (.obj [("data", .arr rows)]) =
      (if isNumZero (getField (.arr rows) "length") then .ok .noData
       else do
        let cols ← columnSpec .undefined (.arr rows)
        let hdr ← headerCells cols
        let rws ← arrElems (.arr rows)
        let body ← mapExcept (bodyRow cols) (rws.take 10)
        .ok (.table cols hdr body
          (if rws.length > 10 then some (footerText rws.length) else none))) := rfl

theorem columnSpec_inferred (fs : List (String × JVal)) (rest : List JVal) :
    columnSpec .undefined (.arr (JVal.obj fs :: rest)) = .ok (inferredColumns fs) := by
  have hlen : jsGtZero (getField (.arr (JVal.obj fs :: rest)) "length") = true := by
    simp [getField, jsGtZero]
  simp only [columnSpec, optChainGet, JVal.isNullish, JVal.truthy, hlen, if_true,
    Bool.false_eq_true, if_false]
  rfl

/-- The fully reduced form of `renderTable` on `\x7b data: rows \x7d` when
every row is a non-nullish value and the first row is an object: columns
are inferred from the first row's keys, the body is the first ten rows
stringified, and the footer carries the true row count exactly when it
exceeds ten. -/
theorem renderTable_inferred (fs : List (String × JVal)) (rest : List JVal)
    (hobj : ∀ r ∈ (JVal.obj fs :: rest), r.isNullish = false) :
    renderTable (.obj [("data", .arr (JVal.obj fs :: rest))]) =
      .ok (.table (inferredColumns fs) (inferredColumns fs)
        (tableBodyOf (inferredColumns fs) (JVal.obj fs :: rest))
        (if (JVal.obj fs :: rest).length > 10 then
          some (footerText (JVal.obj fs :: rest).length) else none)) := by
  have hguard : isNumZero (getField (.arr (JVal.obj fs :: rest)) "length") = false := by
    simp only [getField, isNumZero, List.length_cons, beq_eq_false_iff_ne, ne_eq]
    omega
  have hbody := mapExcept_ok (bodyRow (inferredColumns fs))
    (fun r => (inferredColumns fs).map (cellRender r))
    ((JVal.obj fs :: rest).take 10)
    (fun r hr =>
      bodyRow_ok _ r (hobj r (List.take_subset _ _ hr)) (inferredColumns_nonNullish fs))
  rw [renderTable_data_arr, hguard]
  simp only [Bool.false_eq_true, if_false]
  rw [columnSpec_inferred fs rest]
  simp only [except_bind_ok]
  rw [headerCells_ok _ (inferredColumns_nonNullish fs)]
  simp only [except_bind_ok]
  rw [show arrElems (.arr (JVal.obj fs :: rest)) = .ok (JVal.obj fs :: rest) from rfl]
  simp only [except_bind_ok]
  rw [hbody]
  simp only [except_bind_ok]
  rw [map_hdrRender_inferred]
  rfl

/-- `renderTable` on a payload with explicit `chart_data.columns` and row
data in `data`, with the plain reads and `tableData` reduced. -/
theorem renderTable_explicit_entry (cs rows : List JVal) :
    renderTable
      (.obj [("chart_data", .obj [("columns", .arr cs)]), ("data", .arr rows)]) =
      (if isNumZero (getField (.arr rows) "length") then .ok .noData
       else do
        let cols ← columnSpec (.obj [("columns", .arr cs)]) (.arr rows)
        let hdr ← headerCells cols
        let rws ← arrElems (.arr rows)
        let body ← mapExcept (bodyRow cols) (rws.take 10)
        .ok (.table cols hdr body
          (if rws.length > 10 then some (footerText rws.length) else none))) := rfl

/-- An explicitly supplied (truthy) column array wins over inference. -/
theorem columnSpec_explicit (cs : List JVal) (td : JVal) :
    columnSpec (.obj [("columns", .arr cs)]) td = .ok cs := rfl

/-- Fully reduced `renderTable` when `chart_data.columns` is an explicit
array of non-nullish entries and `data` holds a non-empty list of
non-nullish rows. -/
theorem renderTable_explicit (cs : List JVal) (r0 : JVal) (rest : List JVal)
    (hrows : ∀ r ∈ (r0 :: rest), r.isNullish = false)
    (hcs : ∀ c ∈ cs, c.isNullish = false) :
    renderTable
      (.obj [("chart_data", .obj [("columns", .arr cs)]), ("data", .arr (r0 :: rest))]) =
      .ok (.table cs (cs.map hdrRender) (tableBodyOf cs (r0 :: rest))
        (if (r0 :: rest).length > 10 then
          some (footerText (r0 :: rest).length) else none)) := by
  have hguard : isNumZero (getField (.arr (r0 :: rest)) "length") = false := by
    simp only [getField, isNumZero, List.length_cons, beq_eq_false_iff_ne, ne_eq]
    omega
  have hbody := mapExcept_ok (bodyRow cs) (fun r => cs.map (cellRender r))
    ((r0 :: rest).take 10)
    (fun r hr => bodyRow_ok cs r (hrows r (List.take_subset _ _ hr)) hcs)
  rw [renderTable_explicit_entry, hguard]
  simp only [Bool.false_eq_true, if_false]
  rw [columnSpec_explicit]
  simp only [except_bind_ok]
  rw [headerCells_ok cs hcs]
  simp only [except_bind_ok]
  rw [show arrElems (.arr (r0 :: rest)) = .ok (r0 :: rest) from rfl]
  simp only [except_bind_ok]
  rw [hbody]
  simp only [except_bind_ok]
  rfl

/-- A concrete payload passing the chart-data validity check. -/
def chartSpecimen : JVal :=
  .obj [("chart_data", .obj [("data",
    .obj [("labels", .arr [.str "Jan"]), ("datasets", .arr [])])])]

/-!
## The claims
-/

/-- C1.  For every input text that is empty or whitespace-only, and for
every call made while a request is already outstanding (`isLoading` true),
`handleSendMessage` is a no-op: the state (hence the conversation length)
is unchanged and no remote call is issued. -/
theorem submit_noop (s : ChatState) (svc : Except Unit JVal)
    (h : (jsTrim s.inputMessage == "" || s.isLoading) = true) :
    handleSendMessage s svc = s ∧ issuesRequest s = false ∧
    (handleSendMessage s svc).messages.length = s.messages.length := by
  have h1 : handleSendMessage s svc = s := by
    unfold handleSendMessage
    simp [h]
  refine ⟨h1, ?_, by rw [h1]⟩
  cases hb : (jsTrim s.inputMessage == "") <;> cases hl : s.isLoading <;>
    simp_all [issuesRequest]

/-- C1 witness: whitespace-only input, idle state. -/
theorem submit_noop_witness :
    (jsTrim "   " == "" || false) = true ∧
    handleSendMessage ⟨[], "   ", false⟩ (.error ()) = ⟨[], "   ", false⟩ ∧
    issuesRequest ⟨[], "   ", false⟩ = false :=
  ⟨rfl, (submit_noop ⟨[], "   ", false⟩ (.error ()) rfl).1,
    (submit_noop ⟨[], "   ", false⟩ (.error ()) rfl).2.1⟩

/-- C2.  When the remote call throws a transport error, exactly one
assistant message is appended after the user message; it carries
`isError = true` and the fixed apology string as content; the conversation
grows by exactly two messages and `isLoading` is false afterwards. -/
theorem submit_failure (s : ChatState)
    (h1 : jsTrim s.inputMessage ≠ "") (h2 : s.isLoading = false) :
    handleSendMessage s (.error ()) =
      { messages := s.messages ++ [userMessageOf s.inputMessage, errorMessageVal]
        inputMessage := ""
        isLoading := false } ∧
    (handleSendMessage s (.error ())).messages.length = s.messages.length + 2 ∧
    errorMessageVal.isError = true ∧
    errorMessageVal.content = .str apologyText ∧
    (handleSendMessage s (.error ())).isLoading = false := by
  have hg : (jsTrim s.inputMessage == "" || s.isLoading) = false := by
    simp [h1, h2]
  have heq : handleSendMessage s (.error ()) =
      { messages := s.messages ++ [userMessageOf s.inputMessage, errorMessageVal]
        inputMessage := ""
        isLoading := false } := by
    unfold handleSendMessage
    simp [hg]
  exact ⟨heq, by rw [heq]; simp, rfl, rfl, by rw [heq]⟩

/-- C2 witness: a failing call from the idle empty conversation. -/
theorem submit_failure_witness :
    jsTrim "top products?" ≠ "" ∧
    handleSendMessage ⟨[], "top products?", false⟩ (.error ()) =
      { messages := [userMessageOf "top products?", errorMessageVal]
        inputMessage := ""
        isLoading := false } :=
  ⟨by decide, (submit_failure ⟨[], "top products?", false⟩ (by decide) rfl).1⟩

/-- C3.  Every dispatched request clears `isLoading` on resolution, on the
success path and on the failure path alike (the `finally` cleanup). -/
theorem awaiting_cleared (s : ChatState) (svc : Except Unit JVal)
    (h : issuesRequest s = true) :
    (handleSendMessage s svc).isLoading = false := by
  have h' := h
  simp only [issuesRequest, Bool.and_eq_true, Bool.not_eq_true'] at h'
  have hg : (jsTrim s.inputMessage == "" || s.isLoading) = false := by
    simp [h'.1, h'.2]
  unfold handleSendMessage
  rw [hg]
  cases svc with
  | ok d => cases hd : d.isNullish <;> simp [hd]
  | error e => rfl

/-- C3 witness: both a success and a failure resolution at a concrete
dispatched state. -/
theorem awaiting_cleared_witness :
    issuesRequest ⟨[], "q", false⟩ = true ∧
    (handleSendMessage ⟨[], "q", false⟩ (.ok (.obj [("response", .str "hi")]))).isLoading = false ∧
    (handleSendMessage ⟨[], "q", false⟩ (.error ())).isLoading = false :=
  ⟨rfl, awaiting_cleared ⟨[], "q", false⟩ _ rfl, awaiting_cleared ⟨[], "q", false⟩ _ rfl⟩

/-- C4 counterexample: the claim "for every malformed chart payload the
renderer never raises" is false.  With `data = \x7b data: \x7b x: 1 \x7d \x7d`
(no chart-shaped data at all, so certainly no `labels`/`datasets`) and
requested mode `table`, the fall-through table extraction picks the plain
object `\x7b x: 1 \x7d` as `tableData` and `tableData.slice(0, 10)` throws a
`TypeError`. -/
theorem malformed_chart_fallback_cex :
    renderChart (.obj [("data", .obj [("x", .num 1)])]) (.str "table") =
      .error .typeError := rfl

/-- C4 (amended).  For every payload failing the chart-data validity check:
a requested mode other than `table` yields the "unable to generate chart"
notice without raising; requested mode `table` falls through to the table
extraction `renderTable` (which can itself raise when the extracted row
data is not an array). -/
theorem malformed_chart_fallback (data vt : JVal)
    (hmal : hasChartData data = false) :
    (jvalIsStr vt "table" = false → renderChart data vt = .ok .unableMsg) ∧
    (jvalIsStr vt "table" = true → renderChart data vt = renderTable data) := by
  constructor <;> intro h <;> simp [renderChart, hmal, h]

/-- C4 witness: a chart-less payload with mode `line` degrades to the
notice. -/
theorem malformed_chart_fallback_witness :
    hasChartData (.obj []) = false ∧ jvalIsStr (.str "line") "table" = false ∧
    renderChart (.obj []) (.str "line") = .ok .unableMsg :=
  ⟨rfl, rfl, (malformed_chart_fallback (.obj []) (.str "line") rfl).1 rfl⟩

/-- C5 counterexample: the claim that, when the chart-data validity check
passes, `visualization_type = "table"` produces table rendering is false.
With valid chart-shaped data the table branch takes
`data.chart_data?.data` — the labels/datasets *object* — as `tableData`
and its `.slice(0, 10)` throws a `TypeError`, so no table is rendered. -/
theorem mode_dispatch_cex :
    renderChart
      (.obj [("chart_data", .obj [("data",
        .obj [("labels", .arr [.str "Jan"]),
          ("datasets", .arr [.obj [("label", .str "Sales"), ("data", .arr [.num 1])]])])])])
      (.str "table") = .error .typeError := rfl

/-- C5 (amended).  When the chart-data validity check passes, the rendering
mode equals `visualization_type` for `line`, `bar` and `pie`; the value
`table`, like every unrecognized or missing value, dispatches to the table
renderer `renderTable` (which, the chart payload being a plain object
rather than a row array, raises instead of rendering a table). -/
theorem jvalIsStr_eq (v : JVal) (s : String) (h : jvalIsStr v s = true) :
    v = .str s := by
  cases v <;> simp_all [jvalIsStr]

theorem mode_dispatch (data vt : JVal) (hcd : hasChartData data = true) :
    (jvalIsStr vt "line" = true → renderChart data vt = .ok (renderLineChart data)) ∧
    (jvalIsStr vt "bar" = true → renderChart data vt = .ok (renderBarChart data)) ∧
    (jvalIsStr vt "pie" = true → renderChart data vt = .ok (renderPieChart data)) ∧
    (jvalIsStr vt "line" = false → jvalIsStr vt "bar" = false →
      jvalIsStr vt "pie" = false → renderChart data vt = renderTable data) := by
  refine ⟨fun h => ?_, fun h => ?_, fun h => ?_, fun h1 h2 h3 => ?_⟩
  · rw [jvalIsStr_eq vt "line" h]; simp [renderChart, hcd, jvalIsStr]
  · rw [jvalIsStr_eq vt "bar" h]; simp [renderChart, hcd, jvalIsStr]
  · rw [jvalIsStr_eq vt "pie" h]; simp [renderChart, hcd, jvalIsStr]
  · simp [renderChart, hcd, h1, h2, h3]

/-- C5 witness: with valid chart data, mode `line` renders the line chart
built from `chart_data.data.labels`/`.datasets`. -/
theorem mode_dispatch_witness :
    hasChartData chartSpecimen = true ∧
    renderChart chartSpecimen (.str "line") = .ok (renderLineChart chartSpecimen) :=
  ⟨rfl, (mode_dispatch chartSpecimen (.str "line") rfl).1 rfl⟩

/-- C6.  A table render of M non-nullish object rows renders exactly the
first 10 rows (all M when M ≤ 10) and shows the truncation notice carrying
the true total M exactly when M > 10. -/
theorem table_row_cap (rows : List JVal) (fs : List (String × JVal))
    (rest : List JVal) (hshape : rows = JVal.obj fs :: rest)
    (hrows : ∀ r ∈ rows, r.isNullish = false) :
    renderTable (.obj [("data", .arr rows)]) =
      .ok (.table (inferredColumns fs) (inferredColumns fs)
        (tableBodyOf (inferredColumns fs) rows)
        (if rows.length > 10 then some (footerText rows.length) else none)) ∧
    (tableBodyOf (inferredColumns fs) rows).length = min 10 rows.length ∧
    (10 < rows.length →
      (tableBodyOf (inferredColumns fs) rows).length = 10 ∧
      (if rows.length > 10 then some (footerText rows.length) else none) =
        some (footerText rows.length)) ∧
    (rows.length ≤ 10 →
      (tableBodyOf (inferredColumns fs) rows).length = rows.length ∧
      (if rows.length > 10 then some (footerText rows.length) else none) = none) := by
  subst hshape
  refine ⟨renderTable_inferred fs rest hrows, ?_, fun h => ⟨?_, if_pos h⟩,
    fun h => ⟨?_, if_neg (Nat.not_lt.mpr h)⟩⟩
  · simp only [tableBodyOf, List.length_map, List.length_take, List.length_cons]
  · simp only [tableBodyOf, List.length_map, List.length_take, List.length_cons]
    simp only [List.length_cons] at h
    omega
  · simp only [tableBodyOf, List.length_map, List.length_take, List.length_cons]
    simp only [List.length_cons] at h
    omega

/-- C6 witness: 25 identical rows render as 10 rows plus the notice
"Showing 10 of 25 records". -/
theorem table_row_cap_witness :
    renderTable
      (.obj [("data", .arr (List.replicate 25 (JVal.obj [("a", .num 1)])))]) =
      .ok (.table [.str "a"] [.str "a"] (List.replicate 10 ["1"])
        (some "Showing 10 of 25 records")) := by
  have h := table_row_cap (List.replicate 25 (JVal.obj [("a", .num 1)]))
    [("a", .num 1)] (List.replicate 24 (JVal.obj [("a", .num 1)])) rfl
    (fun r hr => by rw [List.eq_of_mem_replicate hr]; rfl)
  rw [h.1]
  rfl

/-- C7 counterexample: the claim that column inference on an empty row set
yields an empty column list is false — the renderer short-circuits to the
"No data available for display" notice before any column inference, so no
table (in particular none with an empty column list) is produced. -/
theorem columns_selection_cex :
    renderTable (.obj [("data", .arr [])]) = .ok .noData ∧
    Rendered.isTable .noData = false := ⟨rfl, rfl⟩

/-- C7 (amended).  Columns are taken from an explicitly supplied (truthy)
column list when present, else inferred as the key set of the first row in
first-seen order, deterministically; an empty row set short-circuits to
the "No data available" notice before column inference runs (no error, but
also no empty-column table). -/
theorem columns_selection (cs rows : List JVal) (fs : List (String × JVal))
    (rest : List JVal) :
    ((∀ c ∈ cs, c.isNullish = false) → (∀ r ∈ rows, r.isNullish = false) →
      rows = JVal.obj fs :: rest →
      renderTable (.obj [("chart_data", .obj [("columns", .arr cs)]),
          ("data", .arr rows)]) =
        .ok (.table cs (cs.map hdrRender) (tableBodyOf cs rows)
          (if rows.length > 10 then some (footerText rows.length) else none))) ∧
    ((∀ r ∈ rows, r.isNullish = false) → rows = JVal.obj fs :: rest →
      renderTable (.obj [("data", .arr rows)]) =
        .ok (.table (inferredColumns fs) (inferredColumns fs)
          (tableBodyOf (inferredColumns fs) rows)
          (if rows.length > 10 then some (footerText rows.length) else none))) ∧
    renderTable (.obj [("data", .arr [])]) = .ok .noData := by
  refine ⟨fun hcs hrows hshape => ?_, fun hrows hshape => ?_, rfl⟩
  · subst hshape
    exact renderTable_explicit cs _ rest hrows hcs
  · subst hshape
    exact renderTable_inferred fs rest hrows

/-- C7 witness: explicit columns `[name]` win over inference; without
explicit columns the keys of the first row are inferred in first-seen
order (`name` before `qty`). -/
theorem columns_selection_witness :
    renderTable (.obj [("chart_data", .obj [("columns", .arr [.str "name"])]),
        ("data", .arr [JVal.obj [("name", .str "W"), ("qty", .num 2)]])]) =
      .ok (.table [.str "name"] [.str "name"] [["W"]] none) ∧
    renderTable
      (.obj [("data", .arr [JVal.obj [("name", .str "W"), ("qty", .num 2)]])]) =
      .ok (.table [.str "name", .str "qty"] [.str "name", .str "qty"]
        [["W", "2"]] none) := by
  have h := columns_selection [.str "name"]
    [JVal.obj [("name", .str "W"), ("qty", .num 2)]]
    [("name", .str "W"), ("qty", .num 2)] []
  constructor
  · rw [h.1 (fun c hc => by rw [List.mem_singleton.mp hc]; rfl)
      (fun r hr => by rw [List.mem_singleton.mp hr]; rfl) rfl]
    rfl
  · rw [h.2.1 (fun r hr => by rw [List.mem_singleton.mp hr]; rfl) rfl]
    rfl

/-- C8.  Every table cell renders its value by the source's trichotomy:
non-null objects/arrays via compact JSON serialization, nullish values as
the empty string, and everything else via its natural string form. -/
theorem cell_stringification (v : JVal) :
    ∃ s, renderTable (.obj [("data", .arr [JVal.obj [("a", v)]])]) =
        .ok (.table [.str "a"] [.str "a"] [[s]] none) ∧
      (isObjectNonNull v = true → s = jsonStringify v) ∧
      (v.isNullish = true → s = "") ∧
      (isObjectNonNull v = false → v.isNullish = false → s = jsToString v) := by
  refine ⟨stringifyCellVal v, ?_, fun h => ?_, fun h => ?_, fun h1 h2 => ?_⟩
  · have h := renderTable_inferred [("a", v)] []
      (fun r hr => by rw [List.mem_singleton.mp hr]; rfl)
    rw [h]
    rfl
  · simp [stringifyCellVal, h]
  · cases v <;> simp_all [stringifyCellVal, isObjectNonNull, JVal.isNullish]
  · simp [stringifyCellVal, h1, h2]

/-- C8 witness: an object cell serializes to compact JSON, a null cell to
the empty string, a number cell to its decimal form. -/
theorem cell_stringification_witness :
    renderTable (.obj [("data", .arr [JVal.obj [("a", .obj [("x", .num 1)])]])]) =
      .ok (.table [.str "a"] [.str "a"] [["\x7b\"x\":1\x7d"]] none) ∧
    renderTable (.obj [("data", .arr [JVal.obj [("a", .null)]])]) =
      .ok (.table [.str "a"] [.str "a"] [[""]] none) := by
  constructor
  · obtain ⟨s, h1, h2, _, _⟩ := cell_stringification (.obj [("x", .num 1)])
    rw [h2 rfl] at h1
    rw [h1]
    rfl
  · obtain ⟨s, h1, _, h3, _⟩ := cell_stringification .null
    rw [h3 rfl] at h1
    rw [h1]

/-- C9 counterexample: the claim that a response lacking the mandatory
`response` field is treated as failure is false.  A 2xx body without
`response` is appended as a normal bot message (no `isError` flag, content
`undefined`), not as the apology message. -/
theorem missing_response_not_failure_cex :
    handleSendMessage ⟨[], "hi", false⟩ (.ok (.obj [("data", .arr [])])) =
      { messages := [userMessageOf "hi", botMessageOf (.obj [("data", .arr [])])]
        inputMessage := ""
        isLoading := false } ∧
    (botMessageOf (.obj [("data", .arr [])])).isError = false ∧
    (botMessageOf (.obj [("data", .arr [])])).content = .undefined ∧
    JVal.undefined ≠ JVal.str apologyText :=
  ⟨rfl, rfl, rfl, fun hcon => JVal.noConfusion hcon⟩

/-- C9 (amended).  A 2xx response body that is non-nullish is never treated
as a failure, whether or not it carries the `response` field: the handler
appends a normal bot message whose content is whatever `d.response` reads
(possibly `undefined`) and whose `isError` flag is unset.  Only a thrown
request — transport error or nullish body — produces the apology
message. -/
theorem missing_response_not_failure (s : ChatState) (d : JVal)
    (h : issuesRequest s = true) (hd : d.isNullish = false) :
    handleSendMessage s (.ok d) =
      { messages := s.messages ++ [userMessageOf s.inputMessage, botMessageOf d]
        inputMessage := ""
        isLoading := false } ∧
    (botMessageOf d).isError = false ∧
    (botMessageOf d).content = getField d "response" := by
  have h' := h
  simp only [issuesRequest, Bool.and_eq_true, Bool.not_eq_true'] at h'
  have hg : (jsTrim s.inputMessage == "" || s.isLoading) = false := by
    simp [h'.1, h'.2]
  refine ⟨?_, rfl, rfl⟩
  unfold handleSendMessage
  simp [hg, hd]

/-- C9 witness: an empty-object body — no `response` field — still yields a
normal bot reply. -/
theorem missing_response_not_failure_witness :
    issuesRequest ⟨[], "q", false⟩ = true ∧
    JVal.isNullish (.obj []) = false ∧
    handleSendMessage ⟨[], "q", false⟩ (.ok (.obj [])) =
      { messages := [userMessageOf "q", botMessageOf (.obj [])]
        inputMessage := ""
        isLoading := false } :=
  ⟨rfl, rfl, (missing_response_not_failure ⟨[], "q", false⟩ (.obj []) rfl rfl).1⟩

/-- C10.  A nullish `data` prop makes ChartRenderer render nothing at all
(`null`: no panel, no title, no notice); and ChatInterface never mounts
ChartRenderer for a message whose `data` is absent or whose visualization
type is `'text'`. -/
theorem chart_renderer_nullish :
    (∀ d vt hf : JVal, d.isNullish = true → chartRendererView d vt hf = .ok none) ∧
    (∀ m : Message, m.data = .undefined ∨ jvalIsStr m.visualization "text" = true →
      mountsChartRenderer m = false) := by
  constructor
  · intro d vt hf h
    cases d <;> simp_all [chartRendererView, JVal.isNullish, JVal.truthy]
  · intro m h
    rcases h with h | h
    · simp [mountsChartRenderer, h, JVal.truthy]
    · simp [mountsChartRenderer, h]

/-- C10 witness: a `null` data prop renders nothing; a bot message with
truthy data but visualization `'text'` does not mount ChartRenderer. -/
theorem chart_renderer_nullish_witness :
    chartRendererView .null (.str "bar") .undefined = .ok none ∧
    mountsChartRenderer
      { type := "bot", content := .str "hi", data := .num 1,
        visualization := .str "text" } = false :=
  ⟨chart_renderer_nullish.1 .null (.str "bar") .undefined rfl,
    chart_renderer_nullish.2 _ (Or.inr rfl)⟩
